import Mathlib

/-!
# Verification of the ProView-AI session-scoped RAG storage layer

Shallow embedding of `app/rag_storage.py`, `app/services.py`, `app/schemas.py`
and the history handling of `main.py`.  External collaborators (the Chroma
vector store, the HuggingFace embedding function, the langchain text splitter
and document loaders, the Groq LLM) are modelled as explicit parameters:

* the document loader's output is the `loaded : List String` argument of
  `process_file` (one string per extracted page);
* the text splitter is an arbitrary `split : String → List String` argument
  (langchain's `split_documents` copies each parent document's metadata onto
  every produced chunk, which `split_documents` below reproduces);
* the embedding-similarity ranking of Chroma's `similarity_search` is an
  arbitrary scoring function `score : Document → ℚ` (similarity of a chunk to
  the current query); Chroma ranks the filtered documents by it;
* a failing embedding/store call is the `storeFail : Bool` argument of
  `get_retrieved_context`;
* the outcome of the LLM chain invocation is a `ChainOutcome` value.

Timestamps (`time.time()`, hour thresholds) are modelled as rationals; the
claims only compare them with `<`, which ℚ represents faithfully for the
concrete values involved.
-/

namespace ProView

/-- ASCII whitespace as recognized by Python's `str.strip()` (the documents
and messages involved are ASCII; Unicode whitespace is not modelled). -/
def isSpace (c : Char) : Bool :=
  c = ' ' || c = '\t' || c = '\n' || c = '\r' || c = '\x0b' || c = '\x0c'

/-- Python's `s.strip()`: drop leading and trailing whitespace. -/
def pyStrip (s : String) : String :=
  ⟨((s.data.dropWhile isSpace).reverse.dropWhile isSpace).reverse⟩

/-- Python's truthiness test `not s or not s.strip()` on a string. -/
def isBlank (s : String) : Bool := pyStrip s == ""

/-- The three metadata fields `app/rag_storage.py` relies on
(`doc.metadata["session_id"]`, `["timestamp"]`, `["source_file"]`);
`none` models an absent key. -/
structure DocMeta where
  session_id : Option String := none
  timestamp : Option ℚ := none
  source_file : Option String := none
  deriving Repr, DecidableEq

/-- A langchain `Document`: `page_content` plus metadata. -/
structure Document where
  page_content : String
  metadata : DocMeta
  deriving Repr, DecidableEq

/-- A document as persisted by Chroma, with its store-assigned id. -/
structure StoredDoc where
  id : Nat
  doc : Document
  deriving Repr, DecidableEq

/-- The Chroma collection `proview_prod`: the persisted documents and the next
fresh id (Chroma's ids are opaque unique strings; naturals model them). -/
structure ChromaStore where
  docs : List StoredDoc
  nextId : Nat
  deriving Repr, DecidableEq

/-- Assign consecutive fresh ids to a batch of added documents. -/
def assignIds (start : Nat) : List Document → List StoredDoc
  | [] => []
  | d :: ds => ⟨start, d⟩ :: assignIds (start + 1) ds

/-- Embeds `vector_db.add_documents(splits)` (rag_storage.py line 140). -/
def ChromaStore.add_documents (s : ChromaStore) (ds : List Document) : ChromaStore :=
  { docs := s.docs ++ assignIds s.nextId ds, nextId := s.nextId + ds.length }

/-- Chroma's exact-match metadata filter `{"session_id": sid}`. -/
def sessionFilter (sid : String) (d : Document) : Bool :=
  d.metadata.session_id == some sid

/-- Embeds `metadata.get('timestamp', 0)` (rag_storage.py line 269). -/
def tsOf (d : Document) : ℚ := d.metadata.timestamp.getD 0

/-- Embeds `ProViewConfig.SESSION_TIMEOUT_HOURS` (config.py line 84). -/
def SESSION_TIMEOUT_HOURS : ℚ := 2

/-- Embeds `janitor_cleanup(hours)` (rag_storage.py lines 240-284): computes
`cutoff = now - hours*3600`, collects the ids of all documents (no session
filter) whose `timestamp` (default 0) is `< cutoff`, deletes them and returns
the updated store plus the number of ids deleted; with nothing to delete it
returns the store unchanged and 0. -/
def janitor_cleanup (now : ℚ) (hours : Option ℚ) (store : ChromaStore) :
    ChromaStore × Nat :=
  let h := hours.getD SESSION_TIMEOUT_HOURS
  let cutoff := now - h * 3600
  let ids := (store.docs.filter (fun sd => decide (tsOf sd.doc < cutoff))).map StoredDoc.id
  if ids.isEmpty then (store, 0)
  else ({ store with docs := store.docs.filter (fun sd => !(ids.contains sd.id)) },
        ids.length)

/-- Embeds `clear_session_data(session_id)` (rag_storage.py lines 206-238): rejects a
blank session id with 0 deletions; otherwise fetches the ids of the session's
documents via `get(where={"session_id": sid})`, deletes them, and returns their
count (0 when the session owns nothing). -/
def clear_session_data (store : ChromaStore) (session_id : String) :
    ChromaStore × Nat :=
  if isBlank session_id then (store, 0)
  else
    let ids := (store.docs.filter (fun sd => sessionFilter session_id sd.doc)).map StoredDoc.id
    if ids.isEmpty then (store, 0)
    else ({ store with docs := store.docs.filter (fun sd => !(ids.contains sd.id)) },
          ids.length)

/-- The `k` actually used by `get_retrieved_context` (rag_storage.py lines
174-176): an out-of-range `k` is replaced by the default 3. -/
def effectiveK (k : Int) : Int :=
  if k < 1 || k > 10 then 3 else k

/-- Insert a document into a list kept in descending similarity order. -/
def insertDesc (score : Document → ℚ) (d : Document) :
    List Document → List Document
  | [] => [d]
  | e :: es =>
      if score e < score d then d :: e :: es else e :: insertDesc score d es

/-- Rank documents by descending similarity score (the external ANN engine's
ordering, modelled as a stable sort by the given score). -/
def sortByScore (score : Document → ℚ) : List Document → List Document
  | [] => []
  | d :: ds => insertDesc score d (sortByScore score ds)

/-- Chroma's `similarity_search(query, k=k, filter={"session_id": sid})`
(rag_storage.py lines 180-184): the documents matching the exact-match
session filter, ranked by the external similarity score (higher first),
truncated to `k`. -/
def retrievedDocs (score : Document → ℚ) (store : ChromaStore) (sid : String)
    (k : Nat) : List Document :=
  (sortByScore score ((store.docs.map StoredDoc.doc).filter (sessionFilter sid))).take k

/-- Embeds `doc.metadata.get('source_file', 'unknown')` (rag_storage.py line 193). -/
def sourceOf (d : Document) : String := d.metadata.source_file.getD "unknown"

/-- One block `[Source i: file]\ncontent` of the formatted context
(rag_storage.py lines 191-195); `i` is the 0-based position. -/
def formatPart (i : Nat) (d : Document) : String :=
  "[Source " ++ toString (i + 1) ++ ": " ++ sourceOf d ++ "]\n"
    ++ pyStrip d.page_content

/-- Embeds `get_retrieved_context(query, session_id, k)` (rag_storage.py lines
156-204).  A blank query short-circuits before any store call; a failing
embedding/store call (`storeFail`) is caught by the `except` clause and
degrades to the fixed error-retry string; an empty result yields the
"no relevant context" message; otherwise the matches are formatted with
source attribution and joined by the fixed separator. -/
def get_retrieved_context (score : Document → ℚ) (storeFail : Bool)
    (store : ChromaStore) (query : String) (session_id : String) (k : Int) :
    String :=
  if isBlank query then "No query provided."
  else if storeFail then "Error retrieving context. Please try again."
  else
    let docs := retrievedDocs score store session_id (effectiveK k).toNat
    if docs.isEmpty then
      "No relevant context available. Please upload your resume or job description to get personalized interview questions."
    else
      String.intercalate "\n\n---\n\n"
        (docs.enum.map (fun p => formatPart p.1 p.2))

/-- Embeds `ProViewConfig.ALLOWED_EXTENSIONS` (config.py line 86). -/
def ALLOWED_EXTENSIONS : List String := [".pdf", ".docx", ".txt"]

/-- langchain's `splitter.split_documents(docs)` (rag_storage.py line 133):
each document's content is cut into pieces by the splitting strategy and every
piece inherits the parent document's metadata unchanged. -/
def split_documents (split : String → List String) (docs : List Document) :
    List Document :=
  docs.flatMap (fun d => (split d.page_content).map
    (fun c => { d with page_content := c }))

/-- Embeds `process_file(file_path, session_id)` (rag_storage.py lines 78-154).
File I/O is abstracted: `ext` is the validated path's lowercased suffix,
`fileName` its basename, and `loaded` the loader's extracted page texts.
An unsupported extension or an empty extraction or an empty split raises
`ValueError` (modelled as `.error`); otherwise every loaded document is
stamped with `session_id`, `timestamp = now` and `source_file`, split into
chunks, and the chunks are added to the store; returns the new store and the
number of chunks created. -/
def process_file (split : String → List String) (store : ChromaStore)
    (ext fileName : String) (loaded : List String) (session_id : String)
    (now : ℚ) : Except String (ChromaStore × Nat) :=
  if ¬ (ext ∈ ALLOWED_EXTENSIONS) then
    .error ("Unsupported file type: " ++ ext)
  else if loaded.isEmpty then
    .error "No content could be extracted from the file"
  else
    let docs := loaded.map (fun t =>
      { page_content := t,
        metadata := { session_id := some session_id, timestamp := some now,
                      source_file := some fileName } })
    let splits := split_documents split docs
    if splits.isEmpty then .error "Document splitting produced no chunks"
    else .ok (store.add_documents splits, splits.length)

/-! ## `app/schemas.py` and `app/services.py` -/

/-- The pydantic model `ProViewCoachOutput` (schemas.py lines 6-41) as plain
data; the field validators are modelled separately because the LLM's raw
structured output may carry values the validators would reject. -/
structure ProViewCoachOutput where
  interviewer_chat : String
  is_correct : Option Bool := none
  score : Option String := none
  refined_explanation : Option String := none
  suggested_replies : List String := []
  deriving Repr, DecidableEq

/-- The capture of `re.match(r'^(\d{1,2})/10$', v)`: the numeric value of the
one- or two-digit group when the whole string matches, `none` otherwise. -/
def scoreMatch (s : String) : Option Nat :=
  match s.toList with
  | [a, '/', '1', '0'] =>
      if a.isDigit then some (a.toNat - '0'.toNat) else none
  | [a, b, '/', '1', '0'] =>
      if a.isDigit && b.isDigit then
        some ((a.toNat - '0'.toNat) * 10 + (b.toNat - '0'.toNat))
      else none
  | _ => none

/-- The `score` field validator `validate_score` (schemas.py lines 14-33):
`None` passes; a string must match `^(\d{1,2})/10$` and its captured value
must lie in 0..10, otherwise a `ValueError` is raised (modelled as `.error`
with the raised message). -/
def validate_score (v : Option String) : Except String (Option String) :=
  match v with
  | none => .ok none
  | some s =>
    match scoreMatch s with
    | none => .error "Score must be in format 'X/10' where X is a number"
    | some val =>
      if val ≤ 10 then .ok (some s)
      else .error "Score must be between 0 and 10"

/-- The `interviewer_chat` field validator (schemas.py lines 35-41): a blank
string raises `ValueError`, otherwise the stripped string is kept. -/
def validate_interviewer_chat (v : String) : Except String String :=
  if isBlank v then .error "interviewer_chat cannot be empty"
  else .ok (pyStrip v)

/-- Embeds `validate_response(response)` (services.py lines 132-157): refills a blank
`interviewer_chat`, and sets `score` to `None` when it is a non-empty string
not matching `^\d{1,2}/10$` — note this regex alone, with no range check on
the captured value. -/
def validate_response (r : ProViewCoachOutput) : ProViewCoachOutput :=
  let r1 :=
    if isBlank r.interviewer_chat then
      { r with interviewer_chat :=
          "I'm here to help you prepare for your interview. What would you like to work on?" }
    else r
  match r1.score with
  | none => r1
  | some s =>
    if s = "" then r1
    else if (scoreMatch s).isSome then r1
    else { r1 with score := none }

/-- A Python exception value, by the classes `get_proview_response`
distinguishes in its `except` clauses. -/
inductive PyExc
  | typeError (msg : String)
  | valueError (msg : String)
  | other (msg : String)
  deriving Repr, DecidableEq

/-- Outcome of `chain.invoke(chain_input)` (services.py line 83): a structured
reply, a value of an unexpected type (failing the `isinstance` check on line
86 and raising `TypeError`), or a raised exception. -/
inductive ChainOutcome
  | ok (r : ProViewCoachOutput)
  | wrongType (tyName : String)
  | raises (e : PyExc)
  deriving Repr, DecidableEq

/-- Fallback returned for a blank user message (services.py lines 46-51). -/
def emptyInputReply : ProViewCoachOutput :=
  { interviewer_chat := "I didn't receive your message. Could you please try again?",
    suggested_replies := ["Tell me about yourself", "I need help preparing for an interview"] }

/-- Fallback returned for a missing session id (services.py lines 53-58). -/
def noSessionReply : ProViewCoachOutput :=
  { interviewer_chat := "Session error. Please refresh and try again.",
    suggested_replies := ["Refresh page"] }

/-- Fallback of the `except TypeError` handler (services.py lines 102-108). -/
def typeErrorReply : ProViewCoachOutput :=
  { interviewer_chat := "I encountered a formatting error. Let's start fresh. What role are you interviewing for?",
    suggested_replies := ["Software Engineer", "Product Manager", "Data Scientist", "Other role"] }

/-- Fallback of the `except ValueError` handler (services.py lines 110-116). -/
def valueErrorReply : ProViewCoachOutput :=
  { interviewer_chat := "I couldn't process that input. Could you rephrase your message?",
    suggested_replies := ["Tell me about yourself", "I'm preparing for a job interview"] }

/-- Fallback of the catch-all `except Exception` handler (services.py lines
118-130). -/
def genericErrorReply : ProViewCoachOutput :=
  { interviewer_chat := "I apologize, but I encountered an issue. Let's try again. What would you like help with?",
    suggested_replies := ["Start interview practice", "Upload my resume", "Get feedback on my answer"] }

/-- Embeds `get_proview_response(user_input, chat_history, session_id)` (services.py
lines 25-130).  The conversation history and the retrieved context only feed
the chain input, whose outcome is the explicit `oc` parameter.  Blank input
and empty session id return their fixed replies before the chain is invoked;
a reply with a blank `interviewer_chat` is repaired in place (lines 90-95);
the `except` handlers turn every raised exception into a fixed fallback
reply, so the function is total. -/
def get_proview_response (user_input : String)
    (chat_history : List (String × String)) (session_id : String)
    (oc : ChainOutcome) : ProViewCoachOutput :=
  if isBlank user_input then emptyInputReply
  else if session_id = "" then noSessionReply
  else
    match oc with
    | .ok r =>
        if isBlank r.interviewer_chat then
          { r with
            interviewer_chat := "I'm processing your request. Could you please provide more details?",
            suggested_replies :=
              if r.suggested_replies.isEmpty then
                ["Tell me more", "What role are you preparing for?"]
              else r.suggested_replies }
        else r
    | .wrongType _ => typeErrorReply
    | .raises (.typeError _) => typeErrorReply
    | .raises (.valueError _) => valueErrorReply
    | .raises (.other _) => genericErrorReply

/-! ## `main.py` history trimming -/

/-- Python's slice `l[-n:]`: the whole list when `n = 0`, otherwise the last
`n` elements (all of them when `n ≥ length`). -/
def pyLastSlice {α : Type} (l : List α) (n : Nat) : List α :=
  if n = 0 then l else l.drop (l.length - n)

/-- The history trimming of the `/chat` handler (main.py lines 307-313): the
loop over `data.history[-N:]` rebuilds each retained message with its `role`
and `content` unchanged, so it is the Python slice by the configured maximum.

Modelled from the spec: `ProViewConfig.MAX_HISTORY_LENGTH` is referenced by
`main.py` but not defined in `app/config.py`; the spec only says history "is
bounded to the last N turns (configurable)", so the maximum `N` is left as a
parameter here. -/
def trim_history {α : Type} (N : Nat) (history : List α) : List α :=
  pyLastSlice history N

/-! ## Concrete sample data used by the witnesses -/

/-- Sample store for the janitor witness: with `now = 10000` and a 1-hour
threshold the cutoff is 6400; the chunk timestamped `6399 = cutoff - 1` must
be deleted and the chunk timestamped `6401 = cutoff + 1` retained. -/
def janitorSampleStore : ChromaStore :=
  { docs := [⟨0, { page_content := "old chunk",
                   metadata := { session_id := some "aaaaaaaa",
                                 timestamp := some 6399,
                                 source_file := some "a.txt" } }⟩,
             ⟨1, { page_content := "fresh chunk",
                   metadata := { session_id := some "bbbbbbbb",
                                 timestamp := some 6401,
                                 source_file := some "b.txt" } }⟩],
    nextId := 2 }

/-- Sample store for the clear-session witness: session `aaaaaaaa` owns one
chunk. -/
def clearSampleStore : ChromaStore :=
  { docs := [⟨0, { page_content := "resume text",
                   metadata := { session_id := some "aaaaaaaa",
                                 timestamp := some 5,
                                 source_file := some "resume_A.txt" } }⟩],
    nextId := 1 }

/-- A stored chunk whose metadata lacks the `timestamp` key. -/
def noTimestampChunk : StoredDoc :=
  ⟨7, { page_content := "no timestamp chunk",
        metadata := { session_id := some "cccccccc",
                      timestamp := none,
                      source_file := some "c.txt" } }⟩

/-! ## Helper lemmas -/

instance {ε α : Type} [DecidableEq ε] [DecidableEq α] : DecidableEq (Except ε α)
  | .error e, .error f =>
      if h : e = f then .isTrue (by rw [h]) else .isFalse (by simp [h])
  | .error _, .ok _ => .isFalse (by simp)
  | .ok _, .error _ => .isFalse (by simp)
  | .ok a, .ok b =>
      if h : a = b then .isTrue (by rw [h]) else .isFalse (by simp [h])

theorem mem_assignIds {sd : StoredDoc} :
    ∀ {start : Nat} {ds : List Document}, sd ∈ assignIds start ds → sd.doc ∈ ds := by
  intro start ds
  induction ds generalizing start with
  | nil => intro h; simp [assignIds] at h
  | cons d ds ih =>
      intro h
      rcases List.mem_cons.1 h with h | h
      · subst h; exact List.mem_cons_self _ _
      · exact List.mem_cons_of_mem _ (ih h)

theorem mem_insertDesc {d e : Document} {score : Document → ℚ}
    {l : List Document} (h : e ∈ insertDesc score d l) : e = d ∨ e ∈ l := by
  induction l with
  | nil => simpa [insertDesc] using h
  | cons x xs ih =>
      unfold insertDesc at h
      split at h
      · rcases List.mem_cons.1 h with h | h
        · exact Or.inl h
        · exact Or.inr h
      · rcases List.mem_cons.1 h with h | h
        · exact Or.inr (h ▸ List.mem_cons_self _ _)
        · rcases ih h with h | h
          · exact Or.inl h
          · exact Or.inr (List.mem_cons_of_mem _ h)

theorem mem_sortByScore {e : Document} {score : Document → ℚ} :
    ∀ {l : List Document}, e ∈ sortByScore score l → e ∈ l := by
  intro l
  induction l with
  | nil => intro h; simpa [sortByScore] using h
  | cons d ds ih =>
      intro h
      rcases mem_insertDesc h with h | h
      · exact h ▸ List.mem_cons_self _ _
      · exact List.mem_cons_of_mem _ (ih h)

theorem mem_add_documents {sd : StoredDoc} {s : ChromaStore} {ds : List Document}
    (h : sd ∈ (s.add_documents ds).docs) : sd ∈ s.docs ∨ sd.doc ∈ ds := by
  rcases List.mem_append.1 h with h | h
  · exact Or.inl h
  · exact Or.inr (mem_assignIds h)

theorem sessionFilter_of_mem_retrievedDocs {d : Document} {score : Document → ℚ}
    {store : ChromaStore} {sid : String} {k : Nat}
    (h : d ∈ retrievedDocs score store sid k) :
    d.metadata.session_id = some sid := by
  unfold retrievedDocs at h
  have h1 := mem_sortByScore (List.mem_of_mem_take h)
  have h2 := (List.mem_filter.1 h1).2
  simpa [sessionFilter] using h2

theorem process_file_new_doc_session {split : String → List String}
    {store store' : ChromaStore} {ext fileName : String} {loaded : List String}
    {sid : String} {now : ℚ} {n : Nat}
    (hok : process_file split store ext fileName loaded sid now
             = Except.ok (store', n)) :
    ∀ sd ∈ store'.docs, sd ∉ store.docs →
      sd.doc.metadata.session_id = some sid := by
  intro sd hmem hnew
  simp only [process_file] at hok
  split at hok
  · exact absurd hok (by simp)
  · split at hok
    · exact absurd hok (by simp)
    · split at hok
      · exact absurd hok (by simp)
      · rw [Except.ok.injEq, Prod.mk.injEq] at hok
        rcases hok with ⟨hst, -⟩
        rcases mem_add_documents (hst ▸ hmem) with h | h
        · exact absurd h hnew
        · rcases List.mem_flatMap.1 h with ⟨d, hd, hc⟩
          rcases List.mem_map.1 hc with ⟨c, -, hceq⟩
          rcases List.mem_map.1 hd with ⟨t, -, hteq⟩
          rw [← hceq, ← hteq]

/-! ## Claims -/

/-- C1.  Session isolation: every document returned by the session-filtered
similarity search of `get_retrieved_context` under session `B` carries
`session_id = B`, and every chunk newly written by `process_file` under
session `A` carries `session_id = A`; hence for `A ≠ B` a chunk written under
`A` is never among the documents retrieved under `B`. -/
theorem c1_session_isolation (split : String → List String)
    (score : Document → ℚ) (store store' : ChromaStore) (ext fileName : String)
    (loaded : List String) (A B : String) (now : ℚ) (n k : Nat)
    (hAB : A ≠ B)
    (hok : process_file split store ext fileName loaded A now
             = Except.ok (store', n)) :
    (∀ d ∈ retrievedDocs score store' B k, d.metadata.session_id = some B)
    ∧ (∀ sd ∈ store'.docs, sd ∉ store.docs →
        sd.doc ∉ retrievedDocs score store' B k) := by
  refine ⟨fun d hd => sessionFilter_of_mem_retrievedDocs hd, ?_⟩
  intro sd hmem hnew hret
  have hA := process_file_new_doc_session hok sd hmem hnew
  have hB := sessionFilter_of_mem_retrievedDocs hret
  rw [hA] at hB
  exact hAB (Option.some.inj hB)

theorem c1_session_isolation_witness :
    ({ page_content := "Senior Backend Engineer, 5 years Go experience",
       metadata := { session_id := some "aaaaaaaa", timestamp := some 0,
                     source_file := some "resume_A.txt" } } : Document)
      ∉ retrievedDocs (fun _ => 0)
          { docs := [⟨0, { page_content := "Senior Backend Engineer, 5 years Go experience",
                           metadata := { session_id := some "aaaaaaaa", timestamp := some 0,
                                         source_file := some "resume_A.txt" } }⟩],
            nextId := 1 } "bbbbbbbb" 3 := by
  exact (c1_session_isolation (fun s => [s]) (fun _ => 0) { docs := [], nextId := 0 }
      { docs := [⟨0, { page_content := "Senior Backend Engineer, 5 years Go experience",
                       metadata := { session_id := some "aaaaaaaa", timestamp := some 0,
                                     source_file := some "resume_A.txt" } }⟩],
        nextId := 1 } ".txt" "resume_A.txt"
      ["Senior Backend Engineer, 5 years Go experience"] "aaaaaaaa" "bbbbbbbb" 0 1 3
      (by decide) rfl).2
      ⟨0, { page_content := "Senior Backend Engineer, 5 years Go experience",
            metadata := { session_id := some "aaaaaaaa", timestamp := some 0,
                          source_file := some "resume_A.txt" } }⟩
      (by decide) (by decide)

/-- C2.  For every input and every chain outcome, the reply returned by
`get_proview_response` has a non-blank `interviewer_chat`; in particular when
the chain produces a blank `interviewer_chat` it is replaced by the fixed
fallback string, and empty `suggested_replies` by the fallback suggestions. -/
theorem c2_interviewer_chat_never_blank (user_input : String)
    (chat_history : List (String × String)) (session_id : String)
    (oc : ChainOutcome) :
    isBlank (get_proview_response user_input chat_history session_id oc).interviewer_chat = false
    ∧ (∀ r : ProViewCoachOutput, isBlank user_input = false → session_id ≠ "" →
        oc = ChainOutcome.ok r → isBlank r.interviewer_chat = true →
        (get_proview_response user_input chat_history session_id oc).interviewer_chat
            = "I'm processing your request. Could you please provide more details?"
        ∧ (r.suggested_replies = [] →
            (get_proview_response user_input chat_history session_id oc).suggested_replies
              = ["Tell me more", "What role are you preparing for?"])) := by
  constructor
  · unfold get_proview_response
    split
    · decide
    split
    · decide
    split
    · split
      · show isBlank "I'm processing your request. Could you please provide more details?" = false
        decide
      · next hb => simpa using hb
    all_goals decide
  · intro r hin hsid hoc hblank
    subst hoc
    constructor
    · simp [get_proview_response, hin, hsid, hblank]
    · intro hrep
      simp [get_proview_response, hin, hsid, hblank, hrep]

theorem c2_interviewer_chat_never_blank_witness :
    isBlank (get_proview_response "hi" [] "sess-0001"
        (ChainOutcome.ok { interviewer_chat := " " })).interviewer_chat = false
    ∧ (get_proview_response "hi" [] "sess-0001"
        (ChainOutcome.ok { interviewer_chat := " " })).interviewer_chat
        = "I'm processing your request. Could you please provide more details?"
    ∧ (get_proview_response "hi" [] "sess-0001"
        (ChainOutcome.ok { interviewer_chat := " " })).suggested_replies
        = ["Tell me more", "What role are you preparing for?"] := by
  refine ⟨(c2_interviewer_chat_never_blank "hi" [] "sess-0001" _).1, ?_, ?_⟩
  · exact ((c2_interviewer_chat_never_blank "hi" [] "sess-0001"
      (ChainOutcome.ok { interviewer_chat := " " })).2 { interviewer_chat := " " }
      (by decide) (by decide) rfl (by decide)).1
  · exact ((c2_interviewer_chat_never_blank "hi" [] "sess-0001"
      (ChainOutcome.ok { interviewer_chat := " " })).2 { interviewer_chat := " " }
      (by decide) (by decide) rfl (by decide)).2 rfl

/-- C3.  Upstream model failure is never propagated: for every exception
raised by the chain invocation (and for an invocation result of the wrong
type, which raises `TypeError`), `get_proview_response` returns the fixed
fallback reply of the matching `except` handler — a total function, so no
error reaches the caller — and each of these fallbacks is apologetic with
non-empty generic suggested replies and a non-blank chat message. -/
theorem c3_upstream_failure_never_propagated (user_input : String)
    (chat_history : List (String × String)) (session_id : String)
    (h1 : isBlank user_input = false) (h2 : session_id ≠ "") :
    (∀ m, get_proview_response user_input chat_history session_id
        (ChainOutcome.raises (PyExc.typeError m)) = typeErrorReply)
    ∧ (∀ m, get_proview_response user_input chat_history session_id
        (ChainOutcome.raises (PyExc.valueError m)) = valueErrorReply)
    ∧ (∀ m, get_proview_response user_input chat_history session_id
        (ChainOutcome.raises (PyExc.other m)) = genericErrorReply)
    ∧ (∀ t, get_proview_response user_input chat_history session_id
        (ChainOutcome.wrongType t) = typeErrorReply)
    ∧ typeErrorReply.suggested_replies ≠ [] ∧ valueErrorReply.suggested_replies ≠ []
    ∧ genericErrorReply.suggested_replies ≠ []
    ∧ isBlank typeErrorReply.interviewer_chat = false
    ∧ isBlank valueErrorReply.interviewer_chat = false
    ∧ isBlank genericErrorReply.interviewer_chat = false := by
  refine ⟨?_, ?_, ?_, ?_, by decide, by decide, by decide, by decide, by decide, by decide⟩
  all_goals intro m
  all_goals simp [get_proview_response, h1, h2]

theorem c3_upstream_failure_never_propagated_witness :
    get_proview_response "hi" [] "sess-0001"
        (ChainOutcome.raises (PyExc.other "connection timed out")) = genericErrorReply
    ∧ genericErrorReply.suggested_replies ≠ [] := by
  have h := c3_upstream_failure_never_propagated "hi" [] "sess-0001"
    (by decide) (by decide)
  exact ⟨h.2.2.1 "connection timed out", h.2.2.2.2.2.2.1⟩

/-- C5.  Score validation, evaluated at the claim's inputs: the pydantic
validator `validate_score` rejects both `"11/10"` and `"7/5"` with a raised
`ValueError`, and `validate_response` normalizes `"7/5"` to `None` — but it
passes `"11/10"` through unchanged, because its regex `^\d{1,2}/10$` has no
0–10 range check on the captured value. -/
theorem c5_score_validation_evaluated :
    validate_score (some "11/10") = Except.error "Score must be between 0 and 10"
    ∧ validate_score (some "7/5")
        = Except.error "Score must be in format 'X/10' where X is a number"
    ∧ (validate_response { interviewer_chat := "ok", score := some "7/5" }).score = none
    ∧ (validate_response { interviewer_chat := "ok", score := some "11/10" }).score
        = some "11/10" := by
  refine ⟨by decide, by decide, by decide, by decide⟩

/-- C6 counterexample.  The claim says an out-of-range `k` is clamped to the
nearest bound of 1–10; the code instead replaces it by the default 3: at
`k = 0` the search runs with 3 (not the nearest bound 1), and at `k = 100`
with 3 (not 10). -/
theorem c6_counterexample :
    effectiveK 0 = 3 ∧ effectiveK 0 ≠ 1 ∧ effectiveK 100 = 3 ∧ effectiveK 100 ≠ 10 := by
  refine ⟨by decide, by decide, by decide, by decide⟩

/-- C6 (amended).  For every `k` outside 1–10, `get_retrieved_context`
silently replaces `k` by the default 3 before performing the similarity
search — it behaves exactly as a call with `k = 3` and rejects nothing. -/
theorem c6_out_of_range_k_uses_default (k : Int) (h : k < 1 ∨ 10 < k) :
    effectiveK k = 3
    ∧ ∀ (score : Document → ℚ) (storeFail : Bool) (store : ChromaStore)
        (query session_id : String),
        get_retrieved_context score storeFail store query session_id k
          = get_retrieved_context score storeFail store query session_id 3 := by
  have hk : effectiveK k = 3 := by
    unfold effectiveK
    rcases h with h | h
    · simp [h]
    · simp [h]
  refine ⟨hk, ?_⟩
  intro score storeFail store query session_id
  unfold get_retrieved_context
  rw [hk, show effectiveK 3 = 3 from rfl]

theorem c6_out_of_range_k_uses_default_witness :
    effectiveK 100 = 3 := (c6_out_of_range_k_uses_default 100 (Or.inr (by norm_num))).1

/-- C7.  The `/chat` handler's history trimming keeps exactly the last `N`
turns (all of them when fewer than `N`): the result is the suffix of the
history of length `min N (length)`, so older messages are dropped and the
retained ones keep their order. -/
theorem c7_history_trimmed_to_last_n {α : Type} (N : Nat) (history : List α)
    (hN : 1 ≤ N) :
    trim_history N history = history.drop (history.length - N)
    ∧ (trim_history N history).length = min N history.length
    ∧ trim_history N history <:+ history
    ∧ (history.length ≤ N → trim_history N history = history) := by
  have hne : N ≠ 0 := Nat.one_le_iff_ne_zero.1 hN
  have heq : trim_history N history = history.drop (history.length - N) := by
    unfold trim_history pyLastSlice
    simp [hne]
  refine ⟨heq, ?_, heq ▸ List.drop_suffix _ _, ?_⟩
  · rw [heq, List.length_drop]
    omega
  · intro hle
    rw [heq, Nat.sub_eq_zero_of_le hle, List.drop_zero]

theorem c7_history_trimmed_to_last_n_witness :
    trim_history 2 ["a", "b", "c"] = ["b", "c"] :=
  (c7_history_trimmed_to_last_n 2 ["a", "b", "c"] (by decide)).1.trans rfl

/-- C8 counterexample.  When the store call fails, `get_retrieved_context`
returns the fixed error-retry string, which is not the "no relevant context
available" message the claim names (that message is only produced for an
empty search result). -/
theorem c8_counterexample :
    get_retrieved_context (fun _ => 0) true { docs := [], nextId := 0 }
        "hello" "sess-0001" 3
      = "Error retrieving context. Please try again."
    ∧ get_retrieved_context (fun _ => 0) true { docs := [], nextId := 0 }
        "hello" "sess-0001" 3
      ≠ "No relevant context available. Please upload your resume or job description to get personalized interview questions." := by
  refine ⟨by decide, by decide⟩

/-- C8 (amended).  When the embedding/vector-store call fails during
retrieval, `get_retrieved_context` never propagates the exception: for every
non-blank query it returns the fixed string "Error retrieving context. Please
try again." (and for a blank query it already returned "No query provided."
before any store call), so the function always returns a string. -/
theorem c8_store_failure_degrades (score : Document → ℚ) (store : ChromaStore)
    (query session_id : String) (k : Int) (h : isBlank query = false) :
    get_retrieved_context score true store query session_id k
      = "Error retrieving context. Please try again." := by
  simp [get_retrieved_context, h]

theorem c8_store_failure_degrades_witness :
    get_retrieved_context (fun _ => 0) true { docs := [], nextId := 0 }
        "What role am I interviewing for?" "sess-0001" 3
      = "Error retrieving context. Please try again." :=
  c8_store_failure_degrades (fun _ => 0) { docs := [], nextId := 0 }
    "What role am I interviewing for?" "sess-0001" 3 (by decide)

theorem contains_filter_ids {p : StoredDoc → Bool} {l : List StoredDoc}
    (hnd : (l.map StoredDoc.id).Nodup) {sd : StoredDoc} (hmem : sd ∈ l) :
    ((l.filter p).map StoredDoc.id).contains sd.id = p sd := by
  by_cases hp : p sd = true
  · rw [hp, List.elem_iff]
    exact List.mem_map.2 ⟨sd, List.mem_filter.2 ⟨hmem, hp⟩, rfl⟩
  · have hf : p sd = false := by revert hp; cases p sd <;> simp
    rw [hf, Bool.eq_false_iff]
    intro hc
    rw [List.elem_iff] at hc
    rcases List.mem_map.1 hc with ⟨x, hx, hxid⟩
    have hxl := (List.mem_filter.1 hx).1
    have hpx := (List.mem_filter.1 hx).2
    have hxsd : x = sd := List.inj_on_of_nodup_map hnd hxl hmem hxid
    rw [hxsd, hf] at hpx
    cases hpx

/-- C4.  `janitor_cleanup` with threshold `h` hours deletes exactly the
documents with `timestamp < now - h*3600` (default 0 for a missing
timestamp), across all sessions, and returns the number deleted; in
particular a chunk timestamped `now - (h*3600 + 1)` is deleted and a chunk
timestamped `now - (h*3600 - 1)` is retained. -/
theorem c4_janitor_exact_eviction (now h : ℚ) (store : ChromaStore)
    (hnd : (store.docs.map StoredDoc.id).Nodup) :
    (janitor_cleanup now (some h) store).1.docs
      = store.docs.filter (fun sd => !decide (tsOf sd.doc < now - h * 3600))
    ∧ (janitor_cleanup now (some h) store).2
      = (store.docs.filter (fun sd => decide (tsOf sd.doc < now - h * 3600))).length
    ∧ (∀ sd ∈ store.docs, tsOf sd.doc = now - (h * 3600 + 1) →
        sd ∉ (janitor_cleanup now (some h) store).1.docs)
    ∧ (∀ sd ∈ store.docs, tsOf sd.doc = now - (h * 3600 - 1) →
        sd ∈ (janitor_cleanup now (some h) store).1.docs) := by
  have hdocs : (janitor_cleanup now (some h) store).1.docs
      = store.docs.filter (fun sd => !decide (tsOf sd.doc < now - h * 3600)) := by
    simp only [janitor_cleanup, Option.getD_some]
    split
    · next hid =>
        have hnil : store.docs.filter
            (fun sd => decide (tsOf sd.doc < now - h * 3600)) = [] := by
          simpa using hid
        have hall := List.filter_eq_nil_iff.1 hnil
        refine Eq.symm (List.filter_eq_self.2 ?_)
        intro sd hsd
        simpa using hall sd hsd
    · exact List.filter_congr (fun sd hsd => by rw [contains_filter_ids hnd hsd])
  have hcount : (janitor_cleanup now (some h) store).2
      = (store.docs.filter (fun sd => decide (tsOf sd.doc < now - h * 3600))).length := by
    simp only [janitor_cleanup, Option.getD_some]
    split
    · next hid =>
        have hnil : store.docs.filter
            (fun sd => decide (tsOf sd.doc < now - h * 3600)) = [] := by
          simpa using hid
        rw [hnil]
        rfl
    · rw [List.length_map]
  refine ⟨hdocs, hcount, ?_, ?_⟩
  · intro sd hmem hts hmem'
    rw [hdocs] at hmem'
    have hb := (List.mem_filter.1 hmem').2
    rw [hts] at hb
    have : now - (h * 3600 + 1) < now - h * 3600 := by linarith
    simp [this] at hb
  · intro sd hmem hts
    rw [hdocs]
    refine List.mem_filter.2 ⟨hmem, ?_⟩
    rw [hts]
    have : ¬ now - (h * 3600 - 1) < now - h * 3600 := by linarith
    simp [this]

theorem c4_janitor_exact_eviction_witness :
    (janitor_cleanup 10000 (some 1) janitorSampleStore).2 = 1 := by
  rw [(c4_janitor_exact_eviction 10000 1 janitorSampleStore (by decide)).2.1]
  simp only [janitorSampleStore, tsOf, Option.getD_some, List.filter]
  norm_num

theorem clear_session_data_of_none {store : ChromaStore} {sid : String}
    (h : store.docs.filter (fun sd => sessionFilter sid sd.doc) = []) :
    clear_session_data store sid = (store, 0) := by
  unfold clear_session_data
  split
  · rfl
  · simp only [h, List.map_nil, List.isEmpty_nil, if_true]

/-- C9.  Clear-session idempotence: for a non-blank session id owning at
least one chunk, `clear_session_data` returns a positive count, afterwards no
document of that session remains, and an immediately repeated call (no
intervening writes) returns 0. -/
theorem c9_clear_session_idempotent (store : ChromaStore) (sid : String)
    (h1 : isBlank sid = false)
    (h2 : store.docs.filter (fun sd => sessionFilter sid sd.doc) ≠ []) :
    0 < (clear_session_data store sid).2
    ∧ (∀ sd ∈ (clear_session_data store sid).1.docs,
        sessionFilter sid sd.doc = false)
    ∧ (clear_session_data (clear_session_data store sid).1 sid).2 = 0 := by
  have hne : ((store.docs.filter (fun sd => sessionFilter sid sd.doc)).map
      StoredDoc.id).isEmpty = false := by
    simp [List.isEmpty_iff, h2]
  have hcall : clear_session_data store sid
      = ({ store with docs := store.docs.filter (fun sd =>
            !(((store.docs.filter (fun sd => sessionFilter sid sd.doc)).map
                StoredDoc.id).contains sd.id)) },
         ((store.docs.filter (fun sd => sessionFilter sid sd.doc)).map
            StoredDoc.id).length) := by
    simp only [clear_session_data, h1, Bool.false_eq_true, if_false, hne]
  have hclean : ∀ sd ∈ (clear_session_data store sid).1.docs,
      sessionFilter sid sd.doc = false := by
    intro sd hm
    rw [hcall] at hm
    have hmf := List.mem_filter.1 hm
    by_cases hs : sessionFilter sid sd.doc = true
    · exfalso
      have hin : sd.id ∈ (store.docs.filter (fun sd =>
          sessionFilter sid sd.doc)).map StoredDoc.id :=
        List.mem_map.2 ⟨sd, List.mem_filter.2 ⟨hmf.1, hs⟩, rfl⟩
      have hc : ((store.docs.filter (fun sd =>
          sessionFilter sid sd.doc)).map StoredDoc.id).contains sd.id = true :=
        List.elem_iff.2 hin
      rw [hc] at hmf
      exact Bool.noConfusion hmf.2
    · revert hs; cases sessionFilter sid sd.doc <;> simp
  refine ⟨?_, hclean, ?_⟩
  · rw [hcall]
    simpa [List.length_pos] using h2
  · have hnil : (clear_session_data store sid).1.docs.filter
        (fun sd => sessionFilter sid sd.doc) = [] :=
      List.filter_eq_nil_iff.2 (fun sd hm => by simp [hclean sd hm])
    rw [clear_session_data_of_none hnil]

theorem c9_clear_session_idempotent_witness :
    0 < (clear_session_data clearSampleStore "aaaaaaaa").2
    ∧ (clear_session_data
        (clear_session_data clearSampleStore "aaaaaaaa").1 "aaaaaaaa").2 = 0 := by
  have h := c9_clear_session_idempotent clearSampleStore "aaaaaaaa"
    (by decide) (by decide)
  exact ⟨h.1, h.2.2⟩

/-- C10.  A chunk whose metadata has no `timestamp` field is treated by
`janitor_cleanup` as having timestamp 0, so it is deleted on any cleanup run
whose cutoff `now - h*3600` is positive, regardless of its session id or
actual age. -/
theorem c10_missing_timestamp_always_evicted (now h : ℚ) (store : ChromaStore)
    (sd : StoredDoc) (hmem : sd ∈ store.docs)
    (hts : sd.doc.metadata.timestamp = none)
    (hpos : 0 < now - h * 3600) :
    tsOf sd.doc = 0 ∧ sd ∉ (janitor_cleanup now (some h) store).1.docs := by
  have hts0 : tsOf sd.doc = 0 := by simp [tsOf, hts]
  refine ⟨hts0, ?_⟩
  intro hmem'
  have hpred : decide (tsOf sd.doc < now - h * 3600) = true := by
    simp [hts0, hpos]
  have hin : sd.id ∈ (store.docs.filter (fun x =>
      decide (tsOf x.doc < now - h * 3600))).map StoredDoc.id :=
    List.mem_map.2 ⟨sd, List.mem_filter.2 ⟨hmem, hpred⟩, rfl⟩
  simp only [janitor_cleanup, Option.getD_some] at hmem'
  split at hmem'
  · next hid =>
      have hnil : store.docs.filter
          (fun x => decide (tsOf x.doc < now - h * 3600)) = [] := by
        simpa using hid
      rw [hnil] at hin
      cases hin
  · have hmf := List.mem_filter.1 hmem'
    have hc : ((store.docs.filter (fun x =>
        decide (tsOf x.doc < now - h * 3600))).map StoredDoc.id).contains sd.id
          = true := List.elem_iff.2 hin
    rw [hc] at hmf
    exact Bool.noConfusion hmf.2

theorem c10_missing_timestamp_always_evicted_witness :
    tsOf noTimestampChunk.doc = 0
    ∧ noTimestampChunk ∉ (janitor_cleanup 7200 (some 1)
        { docs := [noTimestampChunk], nextId := 8 }).1.docs :=
  c10_missing_timestamp_always_evicted 7200 1
    { docs := [noTimestampChunk], nextId := 8 } noTimestampChunk
    (by decide) rfl (by norm_num)

end ProView
